import Mathlib

/-!
Verification of `pkg/exec/cli.go` from the pyroscope repository.

The file shallowly embeds the exec CLI core: spy-name resolution and
validation (`performChecks`), the spawn configuration, the profiling-session
lifecycle driven by `Cli`, and the liveness supervision loop
(`waitForProcessToExit`).  External collaborators (the `spy` registry, the
host platform, the scheduler's interleaving of channel events) are
parameters of the model.
-/

namespace PyroscopeExec

/-- One arrival at the supervision loop's `select`, in the order the
scheduler delivers them.  `sigc` is a receive on the shutdown-notification
channel registered via `atexit.Register`; `tick found qerr` is a ticker
tick on which `ps.FindProcess(pid)` returned a non-nil process iff
`found = true` and a non-nil error iff `qerr = true`. -/
inductive LoopEvent
  | sigc
  | tick (found : Bool) (qerr : Bool)
  deriving DecidableEq, Repr

/-- The terminal cause the loop returns with. -/
inductive Termination
  | externalShutdown
  | processObservedDead
  deriving DecidableEq, Repr

/-- The stream bindings `Cli` gives the child: `cmd.Stdin/Stdout/Stderr`
are set to the supervisor's own `os.Stdin/os.Stdout/os.Stderr`. -/
inductive StdStream
  | supervisorStdin
  | supervisorStdout
  | supervisorStderr
  | pipe
  deriving DecidableEq, Repr

/-- The `exec.Cmd` configuration `Cli` builds before `cmd.Start()`
(cli.go lines 58-63): the stream bindings and `SysProcAttr`'s `Setpgid`
flag and `Pgid` field. -/
structure CmdConfig where
  stdin : StdStream
  stdout : StdStream
  stderr : StdStream
  setpgid : Bool
  pgid : Nat
  deriving DecidableEq, Repr

/-- Observable side effects of `Cli` and of the supervision loop.
`killProcess` is `cmd.Process.Kill()` (SIGKILL to the single pid);
`killProcessGroup` is the distinct OS action `syscall.Kill(-pid, ...)`
(signal the whole process group), which the code never performs but the
action vocabulary must distinguish.  `pollPid` is one `ps.FindProcess`
process-table query. -/
inductive Effect
  | resolveAuto (baseName : String)
  | logInfo
  | logSudoWarning
  | ignoreSigchld
  | spawn (argv : List String) (cfg : CmdConfig)
  | newUpstream
  | sleepGrace
  | newSession (spyName : String)
  | sessionStart
  | supervise
  | killProcess
  | killProcessGroup
  | pollPid
  | sessionStop
  | upstreamStop
  deriving DecidableEq, Repr

/-- Whether an event makes the loop return: a shutdown notification, or a
tick whose process-table query satisfies `p == nil || err != nil`. -/
def isTerminal : LoopEvent → Bool
  | LoopEvent.sigc => true
  | LoopEvent.tick found qerr => !found || qerr

/-- Embedding of `waitForProcessToExit` (cli.go lines 89-109) over the
scheduler-ordered list of channel arrivals.  Returns `none` when the event
list is exhausted with the loop still blocked, otherwise the termination
cause, the actions performed, and the events left unconsumed after return:

    for {
      select {
      case <-sigc:
        cmd.Process.Kill()
        return
      case <-t.C:
        p, err := ps.FindProcess(cmd.Process.Pid)
        if p == nil || err != nil { return }
      }
    }
-/
def waitForProcessToExit : List LoopEvent → Option (Termination × List Effect × List LoopEvent)
  | [] => none
  | LoopEvent.sigc :: rest =>
      some (Termination.externalShutdown, [Effect.killProcess], rest)
  | LoopEvent.tick found qerr :: rest =>
      if !found || qerr then
        some (Termination.processObservedDead, [Effect.pollPid], rest)
      else
        match waitForProcessToExit rest with
        | none => none
        | some (t, acts, rem) => some (t, Effect.pollPid :: acts, rem)

/-- Readiness of the two `select` cases at one instant: is a value
available on `sigc`, and on the ticker channel `t.C`. -/
structure SelectState where
  sigcReady : Bool
  tickReady : Bool
  deriving DecidableEq, Repr

/-- Which case of the two-case `select` the runtime commits to. -/
inductive SelectChoice
  | sigcCase
  | tickCase
  deriving DecidableEq, Repr

/-- The body a committed case executes: the shutdown branch kills the
target and returns; the tick branch performs a liveness poll. -/
inductive SelectBranch
  | shutdownBranch
  | pollBranch
  deriving DecidableEq, Repr

/-- Semantics of Go's `select` statement for the two-case select of
`waitForProcessToExit`: the runtime may commit to any ready case (per the
Go specification it chooses among ready cases via a uniform pseudo-random
selection), and a non-ready case is never chosen. -/
def selectStep (s : SelectState) : SelectChoice → Option SelectBranch
  | SelectChoice.sigcCase =>
      if s.sigcReady then some SelectBranch.shutdownBranch else none
  | SelectChoice.tickCase =>
      if s.tickReady then some SelectBranch.pollBranch else none

/-- Embedding of `stringsContains` (cli.go lines 136-143): linear scan for
an exact element match. -/
def stringsContains : List String → String → Bool
  | [], _ => false
  | v :: arr, element => if v = element then true else stringsContains arr element

/-- Embedding of Go `path.Base`: empty path gives ".", trailing slashes are
dropped, then everything up to the last slash is dropped; an all-slash path
gives "/". -/
def pathBase (p : String) : String :=
  if p = "" then "."
  else
    let trimmed := (p.toList.reverse.dropWhile (fun c => c = '/')).reverse
    if trimmed = [] then "/"
    else String.mk (trimmed.reverse.takeWhile (fun c => c ≠ '/')).reverse

/-- Embedding of `fatih/color.YellowString`: the text wrapped in the
yellow ANSI escape sequence. -/
def yellowString (s : String) : String := "\x1b[33m" ++ s ++ "\x1b[0m"

/-- Embedding of `fatih/color.BlueString`: the text wrapped in the blue
ANSI escape sequence. -/
def blueString (s : String) : String := "\x1b[34m" ++ s ++ "\x1b[0m"

/-- Host-platform facts and the `spy` registry, which lives outside this
file's source fragment (`pkg/agent/spy`); `Cli` consumes it through these
fields.  `resolveAutoName` returns `""` when no mapping exists, mirroring
`spy.ResolveAutoName`; `supportedSpies` is `spy.SupportedSpies`;
`supportedExecSpies` is `spy.SupportedExecSpies()`. -/
structure SpyEnv where
  resolveAutoName : String → String
  supportedSpies : List String
  supportedExecSpies : List String
  isDarwin : Bool
  isArm64 : Bool
  isRoot : Bool

/-- Embedding of `armMessage` (cli.go lines 150-155). -/
def armMessage (env : SpyEnv) : String :=
  if env.isArm64 then "Note that rbspy is not available on arm64 platform" else ""

/-- The suggested command built in the auto-detection failure path
(cli.go line 36): `pyroscope exec -spy-name <first supported spy> <args>`.
The Go code indexes `supportedSpies[0]`, so the list is nonempty wherever
this is evaluated; `headD` stands in for that index. -/
def suggestedCommand (supportedSpies : List String) (args : List String) : String :=
  "pyroscope exec -spy-name " ++ supportedSpies.headD "" ++ " " ++ String.intercalate " " args

/-- The auto-detection failure message of cli.go lines 37-46, with the
format string of `fmt.Errorf` expanded at its verbs. -/
def autoErrMsg (env : SpyEnv) (baseName : String) (args : List String) : String :=
  "could not automatically find a spy for program \"" ++ baseName ++
  "\". Pass spy name via " ++ yellowString "-spy-name" ++
  " argument, for example: \n  " ++
  yellowString (suggestedCommand env.supportedExecSpies args) ++
  "\n\nAvailable spies are: " ++ String.intercalate "," env.supportedExecSpies ++
  "\n" ++ armMessage env ++
  "\nIf you believe this is a mistake, please submit an issue at " ++
  blueString "https://github.com/pyroscope-io/pyroscope/issues"

/-- The `gospy` rejection message of cli.go line 113. -/
def gospyErrMsg : String :=
  "gospy can not profile other processes. See our documentation on using gospy: " ++
  blueString "https://pyroscope.io/docs/"

/-- The unsupported-spy message of cli.go lines 124-129. -/
def unsupportedSpyMsg (env : SpyEnv) (spyName : String) : String :=
  "Spy \"" ++ blueString spyName ++ "\" is not supported. Available spies are: " ++
  String.intercalate "," env.supportedExecSpies ++ "\n" ++ armMessage env

/-- Embedding of `performChecks` (cli.go lines 111-134): reject `gospy`
outright; on darwin without root only log an error and continue; reject a
spy name absent from `spy.SupportedSpies`.  Returns the log effects emitted
alongside the verdict. -/
def performChecks (env : SpyEnv) (spyName : String) : List Effect × Except String Unit :=
  if spyName = "gospy" then ([], Except.error gospyErrMsg)
  else
    let logs := if env.isDarwin && !env.isRoot then [Effect.logSudoWarning] else []
    if stringsContains env.supportedSpies spyName then (logs, Except.ok ())
    else (logs, Except.error (unsupportedSpyMsg env spyName))

/-- The spy-name resolution at the top of `Cli` (cli.go lines 31-48): an
explicit name passes through; `"auto"` consults the registry on the target
basename and fails with `autoErrMsg` when no mapping exists. -/
def resolveSpyName (env : SpyEnv) (cfgSpyName : String) (arg0 : String)
    (args : List String) : List Effect × Except String String :=
  if cfgSpyName = "auto" then
    let baseName := pathBase arg0
    let s := env.resolveAutoName baseName
    ([Effect.resolveAuto baseName],
     if s = "" then Except.error (autoErrMsg env baseName args) else Except.ok s)
  else ([], Except.ok cfgSpyName)

/-- The configuration as assembled in cli.go lines 58-63: inherited
streams and `SysProcAttr{Setpgid: true}` with the zero-valued `Pgid`. -/
def execCmdConfig : CmdConfig :=
  { stdin := StdStream.supervisorStdin
    stdout := StdStream.supervisorStdout
    stderr := StdStream.supervisorStderr
    setpgid := true
    pgid := 0 }

/-- OS semantics of `setpgid` at spawn: with `Setpgid` set and `Pgid = 0`
the child's process group id becomes the child's own pid; with `Pgid ≠ 0`
it becomes that group; without `Setpgid` the child stays in the parent's
group. -/
def spawnedPgid (c : CmdConfig) (childPid parentPgid : Nat) : Nat :=
  if c.setpgid then (if c.pgid = 0 then childPid else c.pgid) else parentPgid

/-- Scheduler-chosen facts of one run: whether `cmd.Start()` succeeds (and
the error text when not), and the order channel events reach the
supervision loop. -/
structure RunInput where
  spawnOk : Bool
  spawnErrMsg : String
  loopEvents : List LoopEvent

/-- Embedding of `Cli` (cli.go lines 26-86).  Returns `none` when the run
never finishes (the supervision loop blocks with no further events),
otherwise the Go return value and the ordered effect trace.  The two
`defer`s unwind in LIFO order: `sess.Stop()` then `u.Stop()`. -/
def Cli (env : SpyEnv) (cfgSpyName : String) (args : List String)
    (inp : RunInput) : Option (Except String Unit × List Effect) :=
  match args with
  | [] => some (Except.error "no arguments passed", [])
  | arg0 :: restArgs =>
    let res := resolveSpyName env cfgSpyName arg0 (arg0 :: restArgs)
    match res.2 with
    | Except.error e => some (Except.error e, res.1)
    | Except.ok spyName =>
      let checks := performChecks env spyName
      match checks.2 with
      | Except.error e =>
          some (Except.error e, res.1 ++ [Effect.logInfo] ++ checks.1)
      | Except.ok _ =>
        let preSpawn := res.1 ++ [Effect.logInfo] ++ checks.1 ++
          [Effect.ignoreSigchld, Effect.spawn (arg0 :: restArgs) execCmdConfig]
        if inp.spawnOk then
          match waitForProcessToExit inp.loopEvents with
          | none => none
          | some (_, acts, _) =>
              some (Except.ok (),
                preSpawn ++
                [Effect.newUpstream, Effect.sleepGrace,
                 Effect.newSession spyName, Effect.sessionStart,
                 Effect.supervise] ++
                acts ++ [Effect.sessionStop, Effect.upstreamStop])
        else some (Except.error inp.spawnErrMsg, preSpawn)

/-! ## Theorems about the supervision loop -/

/-- Helper: every action the loop performs is a single-process kill or a
liveness poll. -/
theorem waitForProcessToExit_acts (evs : List LoopEvent) (t : Termination)
    (acts : List Effect) (rem : List LoopEvent)
    (h : waitForProcessToExit evs = some (t, acts, rem)) :
    ∀ a ∈ acts, a = Effect.killProcess ∨ a = Effect.pollPid := by
  induction evs generalizing acts with
  | nil => simp [waitForProcessToExit] at h
  | cons ev rest ih =>
    cases ev with
    | sigc =>
      simp [waitForProcessToExit] at h
      simp [← h.2.1]
    | tick found qerr =>
      by_cases hc : (!found || qerr) = true
      · simp [waitForProcessToExit, hc] at h
        simp [← h.2.1]
      · rw [Bool.not_eq_true] at hc
        simp only [waitForProcessToExit, hc, Bool.false_eq_true, if_false] at h
        cases hrec : waitForProcessToExit rest with
        | none => rw [hrec] at h; simp at h
        | some r =>
          obtain ⟨t2, acts2, rem2⟩ := r
          rw [hrec] at h
          simp only [Option.some.injEq, Prod.mk.injEq] at h
          obtain ⟨ht, hacts, hrem⟩ := h
          subst ht hrem
          intro a ha
          rw [← hacts] at ha
          rcases List.mem_cons.mp ha with h1 | h1
          · exact Or.inr h1
          · exact ih acts2 hrec a h1

/-- C1: the supervision loop produces exactly one terminal "target gone"
event per run: whenever `waitForProcessToExit` returns, the consumed part
of the event stream consists of non-terminal events followed by exactly one
terminal event (the first of an external shutdown notification or a
liveness poll finding the process absent or erroring), and every event
after that first terminal one is left unconsumed. -/
theorem waitForProcessToExit_exactly_once (evs : List LoopEvent) (t : Termination)
    (acts : List Effect) (rem : List LoopEvent)
    (h : waitForProcessToExit evs = some (t, acts, rem)) :
    ∃ pre e, evs = pre ++ e :: rem ∧ (∀ x ∈ pre, isTerminal x = false) ∧
      isTerminal e = true ∧
      List.countP (fun x => isTerminal x) (pre ++ [e]) = 1 := by
  induction evs generalizing acts with
  | nil => simp [waitForProcessToExit] at h
  | cons ev rest ih =>
    cases ev with
    | sigc =>
      simp [waitForProcessToExit] at h
      refine ⟨[], LoopEvent.sigc, ?_, by simp, rfl, by simp [isTerminal]⟩
      simp [h.2.2]
    | tick found qerr =>
      by_cases hc : (!found || qerr) = true
      · simp [waitForProcessToExit, hc] at h
        refine ⟨[], LoopEvent.tick found qerr, ?_, by simp, hc, ?_⟩
        · simp [h.2.2]
        · simp [isTerminal, hc]
      · rw [Bool.not_eq_true] at hc
        simp only [waitForProcessToExit, hc, Bool.false_eq_true, if_false] at h
        cases hrec : waitForProcessToExit rest with
        | none => rw [hrec] at h; simp at h
        | some r =>
          obtain ⟨t2, acts2, rem2⟩ := r
          rw [hrec] at h
          simp only [Option.some.injEq, Prod.mk.injEq] at h
          obtain ⟨ht, hacts, hrem⟩ := h
          subst ht hrem
          obtain ⟨pre, e, hevs, hpre, hterm, hcount⟩ := ih acts2 hrec
          refine ⟨LoopEvent.tick found qerr :: pre, e, by simp [hevs], ?_, hterm, ?_⟩
          · intro x hx
            rcases List.mem_cons.mp hx with h1 | h1
            · subst h1; simpa [isTerminal] using hc
            · exact hpre x h1
          · simpa [isTerminal, hc] using hcount

/-- Witness for C1 at the concrete run whose only event is the shutdown
notification. -/
theorem waitForProcessToExit_exactly_once_witness :
    ∃ pre e, ([LoopEvent.sigc] : List LoopEvent) = pre ++ e :: [] ∧
      (∀ x ∈ pre, isTerminal x = false) ∧ isTerminal e = true ∧
      List.countP (fun x => isTerminal x) (pre ++ [e]) = 1 :=
  waitForProcessToExit_exactly_once [LoopEvent.sigc] Termination.externalShutdown
    [Effect.killProcess] [] rfl

/-- C2 counterexample: when the shutdown notification arrives first, the
loop performs `cmd.Process.Kill()` — a kill of the single target process —
and no process-group kill (`syscall.Kill(-pid, ...)`) ever appears in the
action trace, contradicting the claim that the entire process group is
killed. -/
theorem shutdown_kills_single_process_not_group :
    waitForProcessToExit [LoopEvent.sigc] =
      some (Termination.externalShutdown, [Effect.killProcess], []) ∧
    Effect.killProcessGroup ∉ ([Effect.killProcess] : List Effect) ∧
    Effect.killProcess ≠ Effect.killProcessGroup := by
  refine ⟨rfl, by simp, by simp⟩

/-- C2 amended: if the external shutdown notification arrives before any
liveness poll observes the target dead, the supervisor forcibly kills the
single target process (`cmd.Process.Kill()`, not its process group) and
then returns, performing no further liveness polling and consuming no
further events. -/
theorem waitForProcessToExit_shutdown_first (pre rest : List LoopEvent)
    (h : ∀ x ∈ pre, isTerminal x = false) :
    waitForProcessToExit (pre ++ LoopEvent.sigc :: rest) =
      some (Termination.externalShutdown,
            pre.map (fun _ => Effect.pollPid) ++ [Effect.killProcess], rest) ∧
    Effect.killProcessGroup ∉
      pre.map (fun _ => Effect.pollPid) ++ [Effect.killProcess] ∧
    Effect.pollPid ∉ ([Effect.killProcess] : List Effect) := by
  refine ⟨?_, by simp, by simp⟩
  induction pre with
  | nil => rfl
  | cons x xs ih =>
    have hx := h x (List.mem_cons_self x xs)
    have hxs : ∀ y ∈ xs, isTerminal y = false := fun y hy => h y (List.mem_cons_of_mem x hy)
    cases x with
    | sigc => simp [isTerminal] at hx
    | tick found qerr =>
      have hc : (!found || qerr) = false := by simpa [isTerminal] using hx
      simp only [List.cons_append, waitForProcessToExit, hc, Bool.false_eq_true, if_false,
        List.append_eq]
      rw [ih hxs]
      simp

/-- Witness for C2's amended theorem: one live tick, then the shutdown
notification. -/
theorem waitForProcessToExit_shutdown_first_witness :
    waitForProcessToExit ([LoopEvent.tick true false] ++ LoopEvent.sigc :: []) =
      some (Termination.externalShutdown,
            [LoopEvent.tick true false].map (fun _ => Effect.pollPid) ++
              [Effect.killProcess], []) ∧
    Effect.killProcessGroup ∉
      [LoopEvent.tick true false].map (fun _ => Effect.pollPid) ++
        [Effect.killProcess] ∧
    Effect.pollPid ∉ ([Effect.killProcess] : List Effect) :=
  waitForProcessToExit_shutdown_first [LoopEvent.tick true false] []
    (by intro x hx; simp at hx; subst hx; rfl)

/-- C3: on a timer tick whose process-table query finds no process or
errors, the loop returns at once to proceed with teardown: the tick's
single poll is the only action, no kill of any kind is issued, and no
further event is consumed (no retry of the query). -/
theorem waitForProcessToExit_dead_tick (found qerr : Bool) (rest : List LoopEvent)
    (h : found = false ∨ qerr = true) :
    waitForProcessToExit (LoopEvent.tick found qerr :: rest) =
      some (Termination.processObservedDead, [Effect.pollPid], rest) ∧
    Effect.killProcess ∉ ([Effect.pollPid] : List Effect) ∧
    Effect.killProcessGroup ∉ ([Effect.pollPid] : List Effect) := by
  have hc : (!found || qerr) = true := by
    rcases h with h | h <;> simp [h]
  exact ⟨by simp [waitForProcessToExit, hc], by simp, by simp⟩

/-- Witness for C3 at a tick whose query returned no process. -/
theorem waitForProcessToExit_dead_tick_witness :
    waitForProcessToExit (LoopEvent.tick false false :: []) =
      some (Termination.processObservedDead, [Effect.pollPid], []) ∧
    Effect.killProcess ∉ ([Effect.pollPid] : List Effect) ∧
    Effect.killProcessGroup ∉ ([Effect.pollPid] : List Effect) :=
  waitForProcessToExit_dead_tick false false [] (Or.inl rfl)

/-- C4 counterexample: in the two-ready state (shutdown notification and
timer tick both ready), committing to the tick case is a valid step of
Go's `select` semantics and executes the liveness-poll branch, not the
shutdown branch — so the shutdown case is not deterministically taken
first. -/
theorem select_tick_possible_when_both_ready :
    selectStep { sigcReady := true, tickReady := true } SelectChoice.tickCase =
      some SelectBranch.pollBranch ∧
    SelectBranch.pollBranch ≠ SelectBranch.shutdownBranch := by
  exact ⟨rfl, by simp⟩

/-- C4 amended: when the shutdown notification and a timer tick are both
ready, Go's `select` chooses nondeterministically among the ready cases:
both the shutdown/kill step and the liveness-poll step are valid steps, so
no shutdown-over-timer priority is in force. -/
theorem selectStep_both_ready (s : SelectState)
    (hs : s.sigcReady = true) (ht : s.tickReady = true) :
    selectStep s SelectChoice.sigcCase = some SelectBranch.shutdownBranch ∧
    selectStep s SelectChoice.tickCase = some SelectBranch.pollBranch := by
  simp [selectStep, hs, ht]

/-- Witness for C4's amended theorem at the concrete two-ready state. -/
theorem selectStep_both_ready_witness :
    selectStep { sigcReady := true, tickReady := true } SelectChoice.sigcCase =
      some SelectBranch.shutdownBranch ∧
    selectStep { sigcReady := true, tickReady := true } SelectChoice.tickCase =
      some SelectBranch.pollBranch :=
  selectStep_both_ready { sigcReady := true, tickReady := true } rfl rfl

/-! ## Theorems about `Cli` -/

/-- Substring containment: `sub` occurs contiguously inside `s`. -/
def containsSubstr (s sub : String) : Prop := ∃ a b, s = a ++ sub ++ b

/-- Helper: spy-name resolution emits at most the auto-detection lookup. -/
theorem resolveSpyName_effects (env : SpyEnv) (cfg arg0 : String) (args : List String) :
    ∀ e ∈ (resolveSpyName env cfg arg0 args).1, e = Effect.resolveAuto (pathBase arg0) := by
  intro e he
  by_cases hc : cfg = "auto"
  · simpa [resolveSpyName, hc] using he
  · simp [resolveSpyName, hc] at he

/-- Helper: `performChecks` emits at most the darwin sudo warning. -/
theorem performChecks_effects (env : SpyEnv) (spyName : String) :
    ∀ e ∈ (performChecks env spyName).1, e = Effect.logSudoWarning := by
  intro e he
  by_cases hg : spyName = "gospy"
  · simp [performChecks, hg] at he
  · by_cases hd : (env.isDarwin && !env.isRoot) = true
    · by_cases hs : stringsContains env.supportedSpies spyName = true <;>
        simpa [performChecks, hg, hd, hs] using he
    · by_cases hs : stringsContains env.supportedSpies spyName = true <;>
        simp [performChecks, hg, hd, hs] at he

/-- C5: calling `Cli` with an empty argument vector fails immediately with
the no-arguments error and performs no action at all: the effect trace is
empty, so no spy resolution, no spawn, no upstream-client construction and
no session creation occur. -/
theorem Cli_no_arguments (env : SpyEnv) (cfg : String) (inp : RunInput) :
    Cli env cfg [] inp = some (Except.error "no arguments passed", []) := rfl

/-- C6: an explicitly named profiler that is `gospy` (self-profiling-only)
or absent from the supported-spy set makes `Cli` fail with the
corresponding unsupported-spy error — a returned error, not a logged
warning — and the spawn call is never reached, nor is a session created or
started. -/
theorem Cli_unsupported_spy (env : SpyEnv) (cfg arg0 : String)
    (restArgs : List String) (inp : RunInput) (hexp : cfg ≠ "auto")
    (hbad : cfg = "gospy" ∨ stringsContains env.supportedSpies cfg = false) :
    ∃ msg effs, Cli env cfg (arg0 :: restArgs) inp = some (Except.error msg, effs) ∧
      (msg = gospyErrMsg ∨ msg = unsupportedSpyMsg env cfg) ∧
      (∀ argv c, Effect.spawn argv c ∉ effs) ∧
      (∀ s, Effect.newSession s ∉ effs) ∧ Effect.sessionStart ∉ effs := by
  by_cases hg : cfg = "gospy"
  · refine ⟨gospyErrMsg, [Effect.logInfo], ?_, Or.inl rfl, by simp, by simp, by simp⟩
    simp [Cli, resolveSpyName, hexp, performChecks, hg]
  · have hbad2 : stringsContains env.supportedSpies cfg = false := by
      rcases hbad with h | h
      · exact absurd h hg
      · exact h
    by_cases hd : (env.isDarwin && !env.isRoot) = true
    · refine ⟨unsupportedSpyMsg env cfg, [Effect.logInfo, Effect.logSudoWarning], ?_,
        Or.inr rfl, by simp, by simp, by simp⟩
      simp [Cli, resolveSpyName, hexp, performChecks, hg, hd, hbad2]
    · refine ⟨unsupportedSpyMsg env cfg, [Effect.logInfo], ?_,
        Or.inr rfl, by simp, by simp, by simp⟩
      simp [Cli, resolveSpyName, hexp, performChecks, hg, hd, hbad2]

/-- Witness for C6: a named spy outside the supported set. -/
theorem Cli_unsupported_spy_witness :
    ∃ msg effs,
      Cli { resolveAutoName := fun _ => "", supportedSpies := ["pyspy", "rbspy"],
            supportedExecSpies := ["pyspy", "rbspy"], isDarwin := false,
            isArm64 := false, isRoot := false }
        "dotnetspy" ["python"] { spawnOk := true, spawnErrMsg := "", loopEvents := [] } =
        some (Except.error msg, effs) ∧
      (msg = gospyErrMsg ∨
        msg = unsupportedSpyMsg
          { resolveAutoName := fun _ => "", supportedSpies := ["pyspy", "rbspy"],
            supportedExecSpies := ["pyspy", "rbspy"], isDarwin := false,
            isArm64 := false, isRoot := false } "dotnetspy") ∧
      (∀ argv c, Effect.spawn argv c ∉ effs) ∧
      (∀ s, Effect.newSession s ∉ effs) ∧ Effect.sessionStart ∉ effs :=
  Cli_unsupported_spy _ "dotnetspy" "python" []
    { spawnOk := true, spawnErrMsg := "", loopEvents := [] }
    (by decide) (Or.inr rfl)

/-- C7: with spy name `"auto"` and a basename auto-detection cannot map,
`Cli` fails before spawning (the trace holds only the registry lookup); the
error message contains the comma-joined full supported-spy list and the
ready-to-run suggested command, and that command substitutes the first
profiler of the supported set. -/
theorem Cli_auto_no_match (env : SpyEnv) (arg0 : String) (restArgs : List String)
    (inp : RunInput) (s0 : String) (srest : List String)
    (hss : env.supportedExecSpies = s0 :: srest)
    (hauto : env.resolveAutoName (pathBase arg0) = "") :
    Cli env "auto" (arg0 :: restArgs) inp =
      some (Except.error (autoErrMsg env (pathBase arg0) (arg0 :: restArgs)),
        [Effect.resolveAuto (pathBase arg0)]) ∧
    containsSubstr (autoErrMsg env (pathBase arg0) (arg0 :: restArgs))
      (String.intercalate "," env.supportedExecSpies) ∧
    containsSubstr (autoErrMsg env (pathBase arg0) (arg0 :: restArgs))
      (suggestedCommand env.supportedExecSpies (arg0 :: restArgs)) ∧
    suggestedCommand env.supportedExecSpies (arg0 :: restArgs) =
      "pyroscope exec -spy-name " ++ s0 ++ " " ++
        String.intercalate " " (arg0 :: restArgs) ∧
    (∀ argv c, Effect.spawn argv c ∉ [Effect.resolveAuto (pathBase arg0)]) := by
  refine ⟨?_, ?_, ?_, ?_, by simp⟩
  · simp [Cli, resolveSpyName, hauto]
  · refine ⟨"could not automatically find a spy for program \"" ++ pathBase arg0 ++
      "\". Pass spy name via " ++ yellowString "-spy-name" ++
      " argument, for example: \n  " ++
      yellowString (suggestedCommand env.supportedExecSpies (arg0 :: restArgs)) ++
      "\n\nAvailable spies are: ",
      "\n" ++ armMessage env ++
      "\nIf you believe this is a mistake, please submit an issue at " ++
      blueString "https://github.com/pyroscope-io/pyroscope/issues", ?_⟩
    simp [autoErrMsg, String.append_assoc]
  · refine ⟨"could not automatically find a spy for program \"" ++ pathBase arg0 ++
      "\". Pass spy name via " ++ yellowString "-spy-name" ++
      " argument, for example: \n  " ++ "\x1b[33m",
      "\x1b[0m" ++ "\n\nAvailable spies are: " ++
      String.intercalate "," env.supportedExecSpies ++
      "\n" ++ armMessage env ++
      "\nIf you believe this is a mistake, please submit an issue at " ++
      blueString "https://github.com/pyroscope-io/pyroscope/issues", ?_⟩
    simp only [autoErrMsg, yellowString, String.append_assoc]
  · simp [suggestedCommand, hss]

/-- Witness for C7: auto-detection on an unknown basename with a concrete
two-element supported set. -/
theorem Cli_auto_no_match_witness :
    Cli { resolveAutoName := fun _ => "", supportedSpies := ["pyspy", "rbspy"],
          supportedExecSpies := ["pyspy", "rbspy"], isDarwin := false,
          isArm64 := false, isRoot := false }
      "auto" ["somebinary"] { spawnOk := true, spawnErrMsg := "", loopEvents := [] } =
      some (Except.error (autoErrMsg
          { resolveAutoName := fun _ => "", supportedSpies := ["pyspy", "rbspy"],
            supportedExecSpies := ["pyspy", "rbspy"], isDarwin := false,
            isArm64 := false, isRoot := false } (pathBase "somebinary") ["somebinary"]),
        [Effect.resolveAuto (pathBase "somebinary")]) ∧
    containsSubstr (autoErrMsg
        { resolveAutoName := fun _ => "", supportedSpies := ["pyspy", "rbspy"],
          supportedExecSpies := ["pyspy", "rbspy"], isDarwin := false,
          isArm64 := false, isRoot := false } (pathBase "somebinary") ["somebinary"])
      (String.intercalate "," ["pyspy", "rbspy"]) ∧
    containsSubstr (autoErrMsg
        { resolveAutoName := fun _ => "", supportedSpies := ["pyspy", "rbspy"],
          supportedExecSpies := ["pyspy", "rbspy"], isDarwin := false,
          isArm64 := false, isRoot := false } (pathBase "somebinary") ["somebinary"])
      (suggestedCommand ["pyspy", "rbspy"] ["somebinary"]) ∧
    suggestedCommand ["pyspy", "rbspy"] ["somebinary"] =
      "pyroscope exec -spy-name " ++ "pyspy" ++ " " ++
        String.intercalate " " ["somebinary"] ∧
    (∀ argv c, Effect.spawn argv c ∉ [Effect.resolveAuto (pathBase "somebinary")]) :=
  Cli_auto_no_match _ "somebinary" [] { spawnOk := true, spawnErrMsg := "", loopEvents := [] }
    "pyspy" ["rbspy"] rfl rfl

/-- C8: the command configuration `Cli` spawns with places the child in its
own process group (with `Setpgid` and the zero `Pgid`, the resulting group
id is the child's own pid), binds the child's standard streams to the
supervisor's own streams, and when the underlying OS spawn fails `Cli`
returns that spawn error unmodified, having performed exactly the
pre-spawn effects and the spawn attempt with that configuration. -/
theorem Cli_spawn_config (env : SpyEnv) (cfg arg0 : String) (restArgs : List String)
    (inp : RunInput) (spyName : String) (childPid parentPgid : Nat)
    (hres : (resolveSpyName env cfg arg0 (arg0 :: restArgs)).2 = Except.ok spyName)
    (hchecks : (performChecks env spyName).2 = Except.ok ())
    (hfail : inp.spawnOk = false) :
    spawnedPgid execCmdConfig childPid parentPgid = childPid ∧
    execCmdConfig.stdin = StdStream.supervisorStdin ∧
    execCmdConfig.stdout = StdStream.supervisorStdout ∧
    execCmdConfig.stderr = StdStream.supervisorStderr ∧
    Cli env cfg (arg0 :: restArgs) inp =
      some (Except.error inp.spawnErrMsg,
        (resolveSpyName env cfg arg0 (arg0 :: restArgs)).1 ++ [Effect.logInfo] ++
        (performChecks env spyName).1 ++
        [Effect.ignoreSigchld, Effect.spawn (arg0 :: restArgs) execCmdConfig]) := by
  refine ⟨rfl, rfl, rfl, rfl, ?_⟩
  simp [Cli, hres, hchecks, hfail]

/-- Witness for C8 at a run whose spawn fails with a concrete error. -/
theorem Cli_spawn_config_witness :
    spawnedPgid execCmdConfig 4242 1 = 4242 ∧
    execCmdConfig.stdin = StdStream.supervisorStdin ∧
    execCmdConfig.stdout = StdStream.supervisorStdout ∧
    execCmdConfig.stderr = StdStream.supervisorStderr ∧
    Cli { resolveAutoName := fun _ => "", supportedSpies := ["pyspy", "rbspy"],
          supportedExecSpies := ["pyspy", "rbspy"], isDarwin := false,
          isArm64 := false, isRoot := false }
      "pyspy" ["python"]
      { spawnOk := false, spawnErrMsg := "fork/exec: no such file", loopEvents := [] } =
      some (Except.error "fork/exec: no such file",
        [Effect.logInfo, Effect.ignoreSigchld, Effect.spawn ["python"] execCmdConfig]) :=
  Cli_spawn_config _ "pyspy" "python" []
    { spawnOk := false, spawnErrMsg := "fork/exec: no such file", loopEvents := [] }
    "pyspy" 4242 1 rfl rfl rfl

/-- C9: on every run of `Cli` that reaches the supervision loop and whose
loop terminates — on either termination path — the trace starts the
session strictly before entering the supervision loop, and after the loop
`sess.Stop()` and the upstream client's `Stop()` each run exactly once
(the two deferred stops, unwinding in LIFO order). -/
theorem Cli_session_lifecycle (env : SpyEnv) (cfg arg0 : String)
    (restArgs : List String) (inp : RunInput) (spyName : String)
    (t : Termination) (acts : List Effect) (rem : List LoopEvent)
    (hres : (resolveSpyName env cfg arg0 (arg0 :: restArgs)).2 = Except.ok spyName)
    (hchecks : (performChecks env spyName).2 = Except.ok ())
    (hok : inp.spawnOk = true)
    (hloop : waitForProcessToExit inp.loopEvents = some (t, acts, rem)) :
    ∃ pre effs,
      Cli env cfg (arg0 :: restArgs) inp = some (Except.ok (), effs) ∧
      effs = pre ++ [Effect.sessionStart, Effect.supervise] ++ acts ++
        [Effect.sessionStop, Effect.upstreamStop] ∧
      List.count Effect.sessionStop effs = 1 ∧
      List.count Effect.upstreamStop effs = 1 := by
  have hacts := waitForProcessToExit_acts inp.loopEvents t acts rem hloop
  have hres1 := resolveSpyName_effects env cfg arg0 (arg0 :: restArgs)
  have hchk1 := performChecks_effects env spyName
  refine ⟨(resolveSpyName env cfg arg0 (arg0 :: restArgs)).1 ++ [Effect.logInfo] ++
      (performChecks env spyName).1 ++
      [Effect.ignoreSigchld, Effect.spawn (arg0 :: restArgs) execCmdConfig] ++
      [Effect.newUpstream, Effect.sleepGrace, Effect.newSession spyName],
    (resolveSpyName env cfg arg0 (arg0 :: restArgs)).1 ++ [Effect.logInfo] ++
      (performChecks env spyName).1 ++
      [Effect.ignoreSigchld, Effect.spawn (arg0 :: restArgs) execCmdConfig] ++
      [Effect.newUpstream, Effect.sleepGrace, Effect.newSession spyName] ++
      [Effect.sessionStart, Effect.supervise] ++ acts ++
      [Effect.sessionStop, Effect.upstreamStop], ?_, rfl, ?_, ?_⟩
  · simp [Cli, hres, hchecks, hok, hloop]
  · have h1 : Effect.sessionStop ∉ (resolveSpyName env cfg arg0 (arg0 :: restArgs)).1 := by
      intro hmem; exact absurd (hres1 _ hmem) (by simp)
    have h2 : Effect.sessionStop ∉ (performChecks env spyName).1 := by
      intro hmem; exact absurd (hchk1 _ hmem) (by simp)
    have h3 : Effect.sessionStop ∉ acts := by
      intro hmem
      rcases hacts _ hmem with h | h <;> simp at h
    simp [List.count_append, List.count_eq_zero.mpr h1, List.count_eq_zero.mpr h2,
      List.count_eq_zero.mpr h3, List.count_cons, List.count_eq_zero]
  · have h1 : Effect.upstreamStop ∉ (resolveSpyName env cfg arg0 (arg0 :: restArgs)).1 := by
      intro hmem; exact absurd (hres1 _ hmem) (by simp)
    have h2 : Effect.upstreamStop ∉ (performChecks env spyName).1 := by
      intro hmem; exact absurd (hchk1 _ hmem) (by simp)
    have h3 : Effect.upstreamStop ∉ acts := by
      intro hmem
      rcases hacts _ hmem with h | h <;> simp at h
    simp [List.count_append, List.count_eq_zero.mpr h1, List.count_eq_zero.mpr h2,
      List.count_eq_zero.mpr h3, List.count_cons, List.count_eq_zero]

/-- Witness for C9 on the external-shutdown termination path. -/
theorem Cli_session_lifecycle_witness :
    ∃ pre effs,
      Cli { resolveAutoName := fun _ => "", supportedSpies := ["pyspy", "rbspy"],
            supportedExecSpies := ["pyspy", "rbspy"], isDarwin := false,
            isArm64 := false, isRoot := false }
        "pyspy" ["python"]
        { spawnOk := true, spawnErrMsg := "", loopEvents := [LoopEvent.sigc] } =
        some (Except.ok (), effs) ∧
      effs = pre ++ [Effect.sessionStart, Effect.supervise] ++ [Effect.killProcess] ++
        [Effect.sessionStop, Effect.upstreamStop] ∧
      List.count Effect.sessionStop effs = 1 ∧
      List.count Effect.upstreamStop effs = 1 :=
  Cli_session_lifecycle _ "pyspy" "python" []
    { spawnOk := true, spawnErrMsg := "", loopEvents := [LoopEvent.sigc] }
    "pyspy" Termination.externalShutdown [Effect.killProcess] [] rfl rfl rfl rfl

/-- C10: whenever `Cli` reaches the supervision loop and the loop
terminates, `Cli` returns the Go `nil` error (modelled `Except.ok ()`) on
both termination paths, so the caller cannot distinguish from the return
value whether the target exited on its own or was killed after an external
shutdown request. -/
theorem Cli_returns_nil (env : SpyEnv) (cfg arg0 : String)
    (restArgs : List String) (inp : RunInput) (spyName : String)
    (t : Termination) (acts : List Effect) (rem : List LoopEvent)
    (hres : (resolveSpyName env cfg arg0 (arg0 :: restArgs)).2 = Except.ok spyName)
    (hchecks : (performChecks env spyName).2 = Except.ok ())
    (hok : inp.spawnOk = true)
    (hloop : waitForProcessToExit inp.loopEvents = some (t, acts, rem)) :
    ∃ effs, Cli env cfg (arg0 :: restArgs) inp = some (Except.ok (), effs) := by
  refine ⟨(resolveSpyName env cfg arg0 (arg0 :: restArgs)).1 ++ [Effect.logInfo] ++
      (performChecks env spyName).1 ++
      [Effect.ignoreSigchld, Effect.spawn (arg0 :: restArgs) execCmdConfig] ++
      [Effect.newUpstream, Effect.sleepGrace, Effect.newSession spyName,
       Effect.sessionStart, Effect.supervise] ++ acts ++
      [Effect.sessionStop, Effect.upstreamStop], ?_⟩
  simp [Cli, hres, hchecks, hok, hloop]

/-- Witness for C10 on the process-observed-dead termination path. -/
theorem Cli_returns_nil_witness :
    ∃ effs,
      Cli { resolveAutoName := fun _ => "", supportedSpies := ["pyspy", "rbspy"],
            supportedExecSpies := ["pyspy", "rbspy"], isDarwin := false,
            isArm64 := false, isRoot := false }
        "pyspy" ["python"]
        { spawnOk := true, spawnErrMsg := "",
          loopEvents := [LoopEvent.tick false false] } =
        some (Except.ok (), effs) :=
  Cli_returns_nil _ "pyspy" "python" []
    { spawnOk := true, spawnErrMsg := "", loopEvents := [LoopEvent.tick false false] }
    "pyspy" Termination.processObservedDead [Effect.pollPid] [] rfl rfl rfl rfl

end PyroscopeExec
